import Mathlib

/-!
Shallow embedding of the MCP chat client (`src/client.ts`).

The client bridges a chat-completion API with tool-providing subprocesses.
External collaborators (the completion endpoint, `JSON.parse`,
`JSON.stringify`, `mcp.callTool`, `mcp.listTools`) are modelled as oracle
parameters; the embedded functions compute the exact control flow of the
TypeScript source and record traces (tool invocations, the conversation sent
to the second completion call, connect calls, cleanup count).
-/

/-- Transport kind of a configured server (`type?: "stdio" | "sse"`). -/
inductive TransportKind where
  | stdio
  | sse
  deriving DecidableEq

/-- `interface McpServer` from the source: one configured tool server. -/
structure McpServer where
  type : Option TransportKind
  command : String
  args : List String
  env : Option (List (String × String))
  deriving DecidableEq

/-- Property schema inside a tool input schema (name-indexed entries). -/
structure PropSchema where
  type : String
  description : String
  deriving DecidableEq

/-- JSON-schema-like input schema of a remote tool, including the source
schema's own `required` list (which the translation discards). -/
structure InputSchema where
  type : String
  properties : List (String × PropSchema)
  required : List String
  deriving DecidableEq

/-- A tool descriptor as reported by `mcp.listTools()`. -/
structure RemoteTool where
  name : String
  description : Option String
  inputSchema : InputSchema
  deriving DecidableEq

/-- `interface Tool` from the source: the translated catalog entry fed to
the chat API. -/
structure ToolFunction where
  name : String
  description : Option String
  parameters : InputSchema
  strict : Bool
  required : List String
  deriving DecidableEq

/-- A catalog entry (`type: "function"` wrapper). -/
structure Tool where
  type : String
  function : ToolFunction
  deriving DecidableEq

/-- The per-tool translation performed inside `connectToServer`:
`{ type: "function", function: { name, description, parameters: inputSchema,
strict: true, required: [] } }`. -/
def translateTool (t : RemoteTool) : Tool :=
  { type := "function"
  , function :=
    { name := t.name
    , description := t.description
    , parameters := t.inputSchema
    , strict := true
    , required := [] } }

/-- The `function` part of one tool call in a completion response. -/
structure ToolCallFunction where
  name : String
  arguments : String
  deriving DecidableEq

/-- One tool call requested by the model. -/
structure ToolCall where
  id : String
  function : ToolCallFunction
  deriving DecidableEq

/-- The assistant message inside a completion choice; `tool_calls` is
`none` when the field is absent and `some l` when present (possibly with
`l = []`, which is still truthy in JavaScript). -/
structure ResponseMessage where
  content : Option String
  tool_calls : Option (List ToolCall)
  deriving DecidableEq

/-- One choice of a completion response. -/
structure Choice where
  message : ResponseMessage
  deriving DecidableEq

/-- A chat completion response. -/
structure ChatCompletion where
  choices : List Choice
  deriving DecidableEq

/-- A message of the conversation built by `processQuery`. -/
inductive ChatMessage where
  | user (content : String)
  | assistant (content : Option String) (tool_calls : List ToolCall)
  | tool (content : String) (tool_call_id : String)
  deriving DecidableEq

/-- Result returned by `mcp.callTool` (its `content` is forwarded as the
tool message's content). -/
structure ToolResult where
  content : String
  deriving DecidableEq

/-- Errors a `processQuery` run can raise: a JavaScript `TypeError`
(reading a property of `undefined`) or a `JSON.parse` failure. -/
inductive QueryError where
  | typeError
  | parseError
  deriving DecidableEq

/-- Hexadecimal digit (lowercase), for `\u` escapes. -/
def hexDigitChar (n : Nat) : Char :=
  if n < 10 then Char.ofNat (48 + n) else Char.ofNat (87 + n)

/-- Four-digit hexadecimal rendering of a code point below 0x10000. -/
def hex4 (n : Nat) : String :=
  String.mk [hexDigitChar ((n / 4096) % 16), hexDigitChar ((n / 256) % 16),
    hexDigitChar ((n / 16) % 16), hexDigitChar (n % 16)]

/-- JavaScript `JSON.stringify` escaping of one character of a string. -/
def escapeJsonChar (c : Char) : String :=
  if c = '"' then "\\\""
  else if c = '\\' then "\\\\"
  else if c = '\n' then "\\n"
  else if c = '\r' then "\\r"
  else if c = '\t' then "\\t"
  else if c = '\x08' then "\\b"
  else if c = '\x0c' then "\\f"
  else if c.toNat < 32 then "\\u" ++ hex4 c.toNat
  else String.singleton c

/-- JavaScript `JSON.stringify` applied to a string value, as used in the
`[Calling tool ...]` trace line. -/
def jsonStringifyString (s : String) : String :=
  "\"" ++ String.join (s.toList.map escapeJsonChar) ++ "\""

/-- Oracles for one `processQuery` run: the external world's responses.
`J` is the (abstract) type of parsed JSON argument values. -/
structure QueryOracles (J : Type) where
  firstResponse : ChatCompletion
  secondResponse : List ChatMessage → ChatCompletion
  parseJson : String → Option J
  callTool : String → J → ToolResult

/-- Trace of one `processQuery` run. -/
structure QueryTrace (J : Type) where
  result : Except QueryError String
  toolCalls : List (String × J)
  secondMessages : Option (List ChatMessage)
  tookToolBranch : Bool

/-- Shallow embedding of `MCPClient.processQuery`. The conversation starts
with a single user message; if the first response's `tool_calls` field is
present (truthy, even when the list is empty) the tool branch is taken:
the first tool call's arguments are parsed, `mcp.callTool` is invoked, a
tool-role message is appended, and a second completion is requested; the
returned string is `finalText.join("\n")`. -/
def processQuery (J : Type) (o : QueryOracles J) (query : String) :
    QueryTrace J :=
  let messages : List ChatMessage := [ChatMessage.user query]
  match o.firstResponse.choices.head? with
  | none =>
    { result := .error .typeError, toolCalls := [], secondMessages := none
    , tookToolBranch := false }
  | some choice =>
    match choice.message.tool_calls with
    | some toolCallList =>
      match toolCallList.head? with
      | none =>
        { result := .error .typeError, toolCalls := []
        , secondMessages := none, tookToolBranch := true }
      | some toolCall =>
        let functionName := toolCall.function.name
        let functionArgs := toolCall.function.arguments
        match o.parseJson functionArgs with
        | none =>
          { result := .error .parseError, toolCalls := []
          , secondMessages := none, tookToolBranch := true }
        | some parsed =>
          let result := o.callTool functionName parsed
          let traceLine := "[Calling tool " ++ functionName ++ " with args "
            ++ jsonStringifyString functionArgs ++ "]"
          let messages2 := messages
            ++ [ChatMessage.tool result.content toolCall.id]
          let secondResult : Except QueryError String :=
            match (o.secondResponse messages2).choices.head? with
            | none => .error .typeError
            | some c2 =>
              .ok (traceLine ++ "\n" ++ c2.message.content.getD "")
          { result := secondResult
          , toolCalls := [(functionName, parsed)]
          , secondMessages := some messages2
          , tookToolBranch := true }
    | none =>
      { result := .ok (choice.message.content.getD "")
      , toolCalls := [], secondMessages := none, tookToolBranch := false }

/-- Does an assistant message list the given tool-call id? -/
def assistantCarriesId (m : ChatMessage) (id : String) : Bool :=
  match m with
  | .assistant _ tcs => tcs.any (fun tc => tc.id = id)
  | _ => false

/-- Auxiliary check: every tool-role message references a tool-call id of a
preceding assistant message (`seen` is the reversed prefix read so far). -/
def toolIdsJustifiedAux (seen : List ChatMessage) :
    List ChatMessage → Bool
  | [] => true
  | m :: rest =>
    match m with
    | .tool _ id =>
      seen.any (fun p => assistantCarriesId p id)
        && toolIdsJustifiedAux (m :: seen) rest
    | _ => toolIdsJustifiedAux (m :: seen) rest

/-- The conversation invariant of the data model: every tool-role message
references a `tool_call_id` that appeared in the tool-call list of a
preceding assistant message. -/
def toolIdsJustified (ms : List ChatMessage) : Bool :=
  toolIdsJustifiedAux [] ms

/-- Trace of one `chatLoop` run: the lines passed to `processQuery`, the
responses printed, and whether the loop ended through its catch clause. -/
structure LoopTrace where
  queries : List String
  printed : List String
  errored : Bool
  deriving DecidableEq

/-- The value a successful `processQuery` run returned (used to describe
what `chatLoop` prints). -/
def okValue (r : Except QueryError String) : String :=
  match r with
  | .ok s => s
  | .error _ => ""

/-- Shallow embedding of `MCPClient.chatLoop`, driven by a finite list of
input lines. A line whose `toLowerCase()` equals `"quit"` breaks the loop;
any other line is passed to `processQuery` and the result printed; an error
thrown by `processQuery` is caught, ending the loop. `oq` gives the
external world's responses for each submitted query. -/
def chatLoop (J : Type) (oq : String → QueryOracles J) :
    List String → LoopTrace
  | [] => { queries := [], printed := [], errored := false }
  | line :: rest =>
    if line.toLower = "quit" then
      { queries := [], printed := [], errored := false }
    else
      let t := processQuery J (oq line) line
      match t.result with
      | .error _ => { queries := [line], printed := [], errored := true }
      | .ok resp =>
        let tr := chatLoop J oq rest
        { queries := line :: tr.queries, printed := resp :: tr.printed
        , errored := tr.errored }

/-- One `connectToServer` body after the transport is wired: append the
translated tools of this server to the accumulated catalog, or re-raise
the connection/listing failure. -/
def connectToServer (remoteTools : Except String (List RemoteTool))
    (tools : List Tool) : Except String (List Tool) :=
  match remoteTools with
  | .error e => .error e
  | .ok rts => .ok (tools ++ rts.map translateTool)

/-- The connection loop of `main`: iterate over the configuration entries
in order, invoking `connectToServer` for each; a failure aborts the loop
(the error is re-raised). Returns the list of configs actually passed to
`connectToServer` together with the final catalog (or the error). `oracle`
gives the outcome of the i-th server's connect/list-tools round-trip. -/
def connectLoop (oracle : Nat → Except String (List RemoteTool)) :
    List (String × McpServer) → Nat → List Tool →
      List McpServer × Except String (List Tool)
  | [], _, acc => ([], .ok acc)
  | (_, cfg) :: rest, i, acc =>
    match connectToServer (oracle i) acc with
    | .error e => ([cfg], .error e)
    | .ok acc2 =>
      let r := connectLoop oracle rest (i + 1) acc2
      (cfg :: r.1, r.2)

/-- Number of tools in a successful list-tools outcome (0 on failure). -/
def exceptLen (e : Except String (List RemoteTool)) : Nat :=
  match e with
  | .ok l => l.length
  | .error _ => 0

/-- Trace of one `main` run. -/
structure MainTrace where
  connectCalls : List McpServer
  loop : Option LoopTrace
  cleanups : Nat

/-- Shallow embedding of `main`: connect to every configured server in
iteration order, run the chat loop, and — in a `finally` block — invoke
`cleanup` (which closes the MCP connection) exactly once, whether the body
completed or threw. -/
def mainRun (J : Type) (oracle : Nat → Except String (List RemoteTool))
    (oq : String → QueryOracles J) (entries : List (String × McpServer))
    (inputs : List String) : MainTrace :=
  let r := connectLoop oracle entries 0 []
  match r.2 with
  | .error _ => { connectCalls := r.1, loop := none, cleanups := 1 }
  | .ok _ =>
    { connectCalls := r.1, loop := some (chatLoop J oq inputs)
    , cleanups := 1 }

/-- A first-response choice requesting one tool call (`echo`, args
`"args"`, id `call_1`). -/
def exampleToolCall : ToolCall :=
  { id := "call_1", function := { name := "echo", arguments := "args" } }

/-- A first-response choice whose message carries the example tool call. -/
def exampleFirstChoice : Choice :=
  { message := { content := some "first"
               , tool_calls := some [exampleToolCall] } }

/-- A second-response choice with plain text content. -/
def exampleSecondChoice : Choice :=
  { message := { content := some "ANSWER", tool_calls := none } }

/-- Concrete oracles: the first response requests the example tool call,
parsing always yields `7`, the tool returns `toolout`, and the second
response answers `ANSWER`. -/
def exampleOracles : QueryOracles Nat :=
  { firstResponse := { choices := [exampleFirstChoice] }
  , secondResponse := fun _ => { choices := [exampleSecondChoice] }
  , parseJson := fun _ => some 7
  , callTool := fun _ _ => { content := "toolout" } }

/-- First response with two simultaneous tool calls: the second one. -/
def secondToolCall : ToolCall :=
  { id := "call_2", function := { name := "other", arguments := "more" } }

/-- A first-response choice carrying two tool calls. -/
def twoToolChoice : Choice :=
  { message := { content := none
               , tool_calls := some [exampleToolCall, secondToolCall] } }

/-- Oracles whose first response carries two tool calls. -/
def twoToolOracles : QueryOracles Nat :=
  { firstResponse := { choices := [twoToolChoice] }
  , secondResponse := fun _ => { choices := [exampleSecondChoice] }
  , parseJson := fun _ => some 7
  , callTool := fun _ _ => { content := "toolout" } }

/-- Oracles whose tool-call arguments do not parse as JSON. -/
def badParseOracles : QueryOracles Nat :=
  { firstResponse := { choices := [exampleFirstChoice] }
  , secondResponse := fun _ => { choices := [exampleSecondChoice] }
  , parseJson := fun _ => none
  , callTool := fun _ _ => { content := "toolout" } }

/-- A first-response choice with no `tool_calls` field at all. -/
def noToolChoice : Choice :=
  { message := { content := some "plain", tool_calls := none } }

/-- Oracles whose first response has no tool calls. -/
def noToolOracles : QueryOracles Nat :=
  { firstResponse := { choices := [noToolChoice] }
  , secondResponse := fun _ => { choices := [] }
  , parseJson := fun _ => none
  , callTool := fun _ _ => { content := "" } }

/-- A first-response choice whose `tool_calls` field is present but the
list is empty (truthy in JavaScript). -/
def emptyToolChoice : Choice :=
  { message := { content := some "text", tool_calls := some [] } }

/-- Oracles whose first response carries an empty tool-call list. -/
def emptyToolOracles : QueryOracles Nat :=
  { firstResponse := { choices := [emptyToolChoice] }
  , secondResponse := fun _ => { choices := [] }
  , parseJson := fun _ => none
  , callTool := fun _ _ => { content := "" } }

/-- C1 counterexample: at a concrete run whose first response requests a
tool call (tool `echo`, args string `"args"`) and whose second response's
text content is `ANSWER`, `processQuery` does not return the second
response's text alone: it returns the `[Calling tool ...]` trace line, a
newline, and then that text. -/
theorem processQuery_not_just_second_text :
    (processQuery Nat exampleOracles "hi").result
      = .ok ("[Calling tool echo with args \"args\"]" ++ "\n" ++ "ANSWER")
    ∧ ("[Calling tool echo with args \"args\"]" ++ "\n" ++ "ANSWER")
        ≠ "ANSWER" :=
  ⟨rfl, by decide⟩

/-- C1 amended: when the first response requests at least one tool call
and its arguments parse, the final answer is the tool trace line
`[Calling tool <name> with args <JSON.stringify(argsString)>]`, a newline,
and then the second response's text content. -/
theorem processQuery_tool_branch_result (J : Type) (o : QueryOracles J)
    (q : String) (choice : Choice) (tc : ToolCall) (tcs : List ToolCall)
    (j : J) (c2 : Choice)
    (h1 : o.firstResponse.choices.head? = some choice)
    (h2 : choice.message.tool_calls = some (tc :: tcs))
    (h3 : o.parseJson tc.function.arguments = some j)
    (h4 : (o.secondResponse [ChatMessage.user q,
            ChatMessage.tool (o.callTool tc.function.name j).content
              tc.id]).choices.head? = some c2) :
    (processQuery J o q).result
      = .ok ("[Calling tool " ++ tc.function.name ++ " with args "
          ++ jsonStringifyString tc.function.arguments ++ "]" ++ "\n"
          ++ c2.message.content.getD "") := by
  simp [processQuery, h1, h2, h3, h4]

/-- C1 amended, witness: the concrete run of the counterexample, through
the general theorem. -/
theorem processQuery_tool_branch_result_witness :
    (processQuery Nat exampleOracles "hi").result
      = .ok ("[Calling tool " ++ exampleToolCall.function.name
          ++ " with args "
          ++ jsonStringifyString exampleToolCall.function.arguments ++ "]"
          ++ "\n" ++ exampleSecondChoice.message.content.getD "") :=
  processQuery_tool_branch_result Nat exampleOracles "hi"
    exampleFirstChoice exampleToolCall [] 7 exampleSecondChoice
    rfl rfl rfl rfl

/-- C2: at a concrete run in which a tool call is executed, the
conversation sent to the second completion call is exactly a user message
followed by a tool-role message; it contains no assistant message at all,
so the tool message's `tool_call_id` (`call_1`) does not appear in any
preceding assistant message's tool-call list — the conversation invariant
is violated by the code. -/
theorem secondCall_conversation_lacks_assistant :
    (processQuery Nat exampleOracles "hi").secondMessages
      = some [ChatMessage.user "hi", ChatMessage.tool "toolout" "call_1"]
    ∧ toolIdsJustified
        [ChatMessage.user "hi", ChatMessage.tool "toolout" "call_1"]
        = false :=
  ⟨rfl, by decide⟩

/-- C3: the translated catalog entry always has an empty required list and
`strict := true`, whatever the source schema's own required-field list. -/
theorem translateTool_required_empty_strict_true (t : RemoteTool) :
    (translateTool t).function.required = []
    ∧ (translateTool t).function.strict = true :=
  ⟨rfl, rfl⟩

/-- C4: when the first response carries one or more tool calls and the
first one's arguments parse, `callTool` is invoked exactly once, with the
first tool call's name and parsed arguments; later tool calls in the same
response are never executed. -/
theorem processQuery_first_tool_only (J : Type) (o : QueryOracles J)
    (q : String) (choice : Choice) (tc : ToolCall) (tcs : List ToolCall)
    (j : J)
    (h1 : o.firstResponse.choices.head? = some choice)
    (h2 : choice.message.tool_calls = some (tc :: tcs))
    (h3 : o.parseJson tc.function.arguments = some j) :
    (processQuery J o q).toolCalls = [(tc.function.name, j)] := by
  simp [processQuery, h1, h2, h3]

/-- C4 witness: a first response with two tool calls executes only the
first (`echo` with parsed arguments `7`). -/
theorem processQuery_first_tool_only_witness :
    (processQuery Nat twoToolOracles "hi").toolCalls = [("echo", 7)] :=
  processQuery_first_tool_only Nat twoToolOracles "hi" twoToolChoice
    exampleToolCall [secondToolCall] 7 rfl rfl rfl

/-- C5: when the first tool call's arguments string does not parse as
JSON, `processQuery` fails with the parse error and `callTool` is invoked
zero times. -/
theorem processQuery_bad_json (J : Type) (o : QueryOracles J) (q : String)
    (choice : Choice) (tc : ToolCall) (tcs : List ToolCall)
    (h1 : o.firstResponse.choices.head? = some choice)
    (h2 : choice.message.tool_calls = some (tc :: tcs))
    (h3 : o.parseJson tc.function.arguments = none) :
    (processQuery J o q).result = .error .parseError
    ∧ (processQuery J o q).toolCalls = [] := by
  simp [processQuery, h1, h2, h3]

/-- C5 witness: a concrete run with unparseable arguments. -/
theorem processQuery_bad_json_witness :
    (processQuery Nat badParseOracles "hi").result = .error .parseError
    ∧ (processQuery Nat badParseOracles "hi").toolCalls = [] :=
  processQuery_bad_json Nat badParseOracles "hi" exampleFirstChoice
    exampleToolCall [] rfl rfl rfl

/-- C6: when the first response has no `tool_calls` field, `processQuery`
returns that response's text content and makes no second completion call
and no tool call. -/
theorem processQuery_no_tool_calls_direct (J : Type) (o : QueryOracles J)
    (q : String) (choice : Choice)
    (h1 : o.firstResponse.choices.head? = some choice)
    (h2 : choice.message.tool_calls = none) :
    (processQuery J o q).result = .ok (choice.message.content.getD "")
    ∧ (processQuery J o q).secondMessages = none
    ∧ (processQuery J o q).toolCalls = [] := by
  simp [processQuery, h1, h2]

/-- C6 witness: a concrete run with no tool calls returns the first
response's text. -/
theorem processQuery_no_tool_calls_direct_witness :
    (processQuery Nat noToolOracles "hi").result
      = .ok (noToolChoice.message.content.getD "")
    ∧ (processQuery Nat noToolOracles "hi").secondMessages = none
    ∧ (processQuery Nat noToolOracles "hi").toolCalls = [] :=
  processQuery_no_tool_calls_direct Nat noToolOracles "hi" noToolChoice
    rfl rfl

/-- C10: a present-but-empty tool-call list (truthy in JavaScript) sends
`processQuery` into the tool branch, where reading the first element of
the empty list fails with a `TypeError`; the direct-return path is taken
exactly when the `tool_calls` field is absent. -/
theorem processQuery_empty_tool_calls_branch (J : Type)
    (o : QueryOracles J) (q : String) (choice : Choice)
    (h1 : o.firstResponse.choices.head? = some choice) :
    (choice.message.tool_calls = some [] →
      (processQuery J o q).result = .error .typeError
      ∧ (processQuery J o q).tookToolBranch = true)
    ∧ ((processQuery J o q).tookToolBranch = false
        ↔ choice.message.tool_calls = none) := by
  cases h2 : choice.message.tool_calls with
  | none => simp [processQuery, h1, h2]
  | some l =>
    cases l with
    | nil => simp [processQuery, h1, h2]
    | cons tc tcs =>
      refine ⟨fun h => by simp at h, ?_⟩
      cases h3 : o.parseJson tc.function.arguments <;>
        simp [processQuery, h1, h2, h3]

/-- C10 witness: a concrete first response whose tool-call list is present
and empty fails with a `TypeError` in the tool branch. -/
theorem processQuery_empty_tool_calls_branch_witness :
    (emptyToolChoice.message.tool_calls = some [] →
      (processQuery Nat emptyToolOracles "hi").result = .error .typeError
      ∧ (processQuery Nat emptyToolOracles "hi").tookToolBranch = true)
    ∧ ((processQuery Nat emptyToolOracles "hi").tookToolBranch = false
        ↔ emptyToolChoice.message.tool_calls = none) :=
  processQuery_empty_tool_calls_branch Nat emptyToolOracles "hi"
    emptyToolChoice rfl

/-- C9: when every submitted query succeeds, the lines passed to
`processQuery` are exactly the input lines up to (and excluding) the first
line that case-insensitively equals `quit`, and each of their results is
printed in order; the sentinel line itself is never submitted. -/
theorem chatLoop_quit_sentinel (J : Type) (oq : String → QueryOracles J)
    (inputs : List String)
    (h : ∀ l ∈ inputs, ∃ s,
      (processQuery J (oq l) l).result = Except.ok s) :
    (chatLoop J oq inputs).queries
      = inputs.takeWhile (fun l => l.toLower != "quit")
    ∧ (chatLoop J oq inputs).printed
      = (inputs.takeWhile (fun l => l.toLower != "quit")).map
          (fun l => okValue (processQuery J (oq l) l).result) := by
  induction inputs with
  | nil => exact ⟨rfl, rfl⟩
  | cons line rest ih =>
    by_cases hq : line.toLower = "quit"
    · simp [chatLoop, hq]
    · obtain ⟨s, hs⟩ := h line (by simp)
      have ih2 := ih (fun l hl => h l (by simp [hl]))
      simp [chatLoop, hq, hs, ih2.1, ih2.2, okValue]

/-- Constant per-query oracles for the chat-loop witness. -/
def constOq : String → QueryOracles Nat := fun _ => noToolOracles

/-- C9 witness: with inputs `hello`, `QUIT`, `later`, only `hello` is
submitted and printed; `QUIT` ends the loop. -/
theorem chatLoop_quit_sentinel_witness :
    (chatLoop Nat constOq ["hello", "QUIT", "later"]).queries
      = (["hello", "QUIT", "later"].takeWhile
          (fun l => l.toLower != "quit"))
    ∧ (chatLoop Nat constOq ["hello", "QUIT", "later"]).printed
      = ((["hello", "QUIT", "later"].takeWhile
          (fun l => l.toLower != "quit")).map
          (fun l => okValue (processQuery Nat (constOq l) l).result)) :=
  chatLoop_quit_sentinel Nat constOq ["hello", "QUIT", "later"]
    (fun _ _ => ⟨"plain", rfl⟩)

/-- Helper for C7, generalised over the starting call index and the
accumulated catalog: when every remaining connect/list round-trip
succeeds, the configs passed to `connectToServer` are exactly the entries'
configs in order, and the final catalog length is the accumulator's length
plus the total number of tools the servers reported. -/
theorem connectLoop_ok (oracle : Nat → Except String (List RemoteTool))
    (entries : List (String × McpServer)) :
    ∀ (i : Nat) (acc : List Tool),
    (∀ k, k < entries.length → ∃ rts, oracle (i + k) = Except.ok rts) →
    (connectLoop oracle entries i acc).1 = entries.map Prod.snd
    ∧ ∃ ts, (connectLoop oracle entries i acc).2 = Except.ok ts
        ∧ ts.length = acc.length
            + ∑ k ∈ Finset.range entries.length,
                exceptLen (oracle (i + k)) := by
  induction entries with
  | nil => exact fun i acc _ => ⟨rfl, acc, rfl, by simp⟩
  | cons e rest ih =>
    intro i acc h
    obtain ⟨rts, hrts⟩ := h 0 (by simp)
    have hi : oracle i = Except.ok rts := by simpa using hrts
    have hshift : ∀ k, k < rest.length →
        ∃ r, oracle ((i + 1) + k) = Except.ok r := by
      intro k hk
      have hk2 : k + 1 < rest.length + 1 := by omega
      have := h (k + 1) (by simpa using hk2)
      have heq : i + (k + 1) = (i + 1) + k := by omega
      rw [heq] at this
      exact this
    obtain ⟨e1, e2⟩ := e
    have ih2 := ih (i + 1) (acc ++ rts.map translateTool) hshift
    obtain ⟨ihCalls, ts, ihOk, ihLen⟩ := ih2
    refine ⟨?_, ts, ?_, ?_⟩
    · simp [connectLoop, connectToServer, hi, ihCalls]
    · simp [connectLoop, connectToServer, hi, ihOk]
    · rw [ihLen]
      have hsum : ∑ k ∈ Finset.range (rest.length + 1),
          exceptLen (oracle (i + k))
          = (∑ k ∈ Finset.range rest.length,
              exceptLen (oracle (i + (k + 1)))) + exceptLen (oracle i) := by
        simpa using Finset.sum_range_succ'
          (fun k => exceptLen (oracle (i + k))) rest.length
      have hcong : ∀ k ∈ Finset.range rest.length,
          exceptLen (oracle (i + (k + 1)))
            = exceptLen (oracle ((i + 1) + k)) := by
        intro k _
        have he : i + (k + 1) = (i + 1) + k := by omega
        rw [he]
      have hc : (∑ k ∈ Finset.range rest.length,
            exceptLen (oracle (i + (k + 1))))
          = ∑ k ∈ Finset.range rest.length,
              exceptLen (oracle ((i + 1) + k)) :=
        Finset.sum_congr rfl hcong
      have hrts : exceptLen (oracle i) = rts.length := by
        rw [hi]
        rfl
      simp only [List.length_cons]
      rw [hsum, hc, hrts]
      simp only [List.length_append, List.length_map]
      omega

/-- C7: for a configuration whose servers all connect and list
successfully, `connectToServer` is invoked once per entry, in iteration
order (so exactly N times), and the merged catalog's size is the sum over
all servers of the number of tools each reported. -/
theorem connect_each_entry_and_catalog_size
    (oracle : Nat → Except String (List RemoteTool))
    (entries : List (String × McpServer))
    (h : ∀ k, k < entries.length → ∃ rts, oracle k = Except.ok rts) :
    (connectLoop oracle entries 0 []).1 = entries.map Prod.snd
    ∧ (connectLoop oracle entries 0 []).1.length = entries.length
    ∧ ∃ ts, (connectLoop oracle entries 0 []).2 = Except.ok ts
        ∧ ts.length = ∑ k ∈ Finset.range entries.length,
            exceptLen (oracle k) := by
  have h0 : ∀ k, k < entries.length → ∃ rts,
      oracle (0 + k) = Except.ok rts := by
    intro k hk
    simpa [Nat.zero_add] using h k hk
  obtain ⟨hcalls, ts, hok, hlen⟩ := connectLoop_ok oracle entries 0 [] h0
  refine ⟨hcalls, by rw [hcalls]; simp, ts, hok, ?_⟩
  rw [hlen]
  simp

/-- A sample input schema whose own required-field list is nonempty. -/
def sampleSchema : InputSchema :=
  { type := "object"
  , properties := [("msg", { type := "string", description := "message" })]
  , required := ["a", "b"] }

/-- A sample remote tool descriptor. -/
def rtEcho : RemoteTool :=
  { name := "echo", description := some "echo tool"
  , inputSchema := sampleSchema }

/-- A second sample remote tool descriptor. -/
def rtAdd : RemoteTool :=
  { name := "add", description := none, inputSchema := sampleSchema }

/-- A third sample remote tool descriptor. -/
def rtTime : RemoteTool :=
  { name := "time", description := some "clock", inputSchema := sampleSchema }

/-- A sample server configuration. -/
def cfgA : McpServer :=
  { type := some .stdio, command := "node", args := ["serverA.js"]
  , env := none }

/-- Another sample server configuration. -/
def cfgB : McpServer :=
  { type := none, command := "python", args := ["serverB.py"]
  , env := some [("PATH", "/usr/bin")] }

/-- Tools reported by the i-th connect/list round-trip of the witness. -/
def wTools : Nat → List RemoteTool := fun i =>
  if i = 0 then [rtEcho, rtAdd] else [rtTime]

/-- Witness list-tools oracle: every round-trip succeeds. -/
def wOracle : Nat → Except String (List RemoteTool) := fun i =>
  Except.ok (wTools i)

/-- Witness configuration with two server entries. -/
def wEntries : List (String × McpServer) := [("alpha", cfgA), ("beta", cfgB)]

/-- C7 witness: two servers reporting two tools and one tool; the connect
step runs once per entry in order, and the catalog has 2 + 1 entries. -/
theorem connect_each_entry_and_catalog_size_witness :
    (connectLoop wOracle wEntries 0 []).1 = wEntries.map Prod.snd
    ∧ (connectLoop wOracle wEntries 0 []).1.length = wEntries.length
    ∧ ∃ ts, (connectLoop wOracle wEntries 0 []).2 = Except.ok ts
        ∧ ts.length = ∑ k ∈ Finset.range wEntries.length,
            exceptLen (wOracle k) :=
  connect_each_entry_and_catalog_size wOracle wEntries
    (fun k _ => ⟨wTools k, rfl⟩)

/-- C8: whatever the configuration, the oracles, and the input lines —
whether the connect phase fails, the loop ends at the quit sentinel, or a
query errors — `mainRun` invokes the cleanup path exactly once before the
process exits. -/
theorem mainRun_cleanup_once (J : Type)
    (oracle : Nat → Except String (List RemoteTool))
    (oq : String → QueryOracles J) (entries : List (String × McpServer))
    (inputs : List String) :
    (mainRun J oracle oq entries inputs).cleanups = 1 := by
  unfold mainRun
  cases h : (connectLoop oracle entries 0 []).2 <;> simp [h]
